import Mathlib

/-!
Shallow embedding of the Gastenhuis auto-rooster pipeline
(`src/app/preprocessing.py`, `src/app/validate.py`, `src/web/app.py`).

Conventions of the embedding:
- Calendar dates are integers counting days from an epoch that falls on a
  Monday, so `weekday(d) = d % 7` with `0 = Monday`, matching
  `pandas.Timestamp.weekday()`.  All dates in the source are whole days
  (`normalize()` is the identity here).
- Times of day are minutes after midnight (`datetime.time` values in the
  source); a missing time (`NaT`/`NaN`) is `Option.none`.
- Python floor division `//` is `Int.fdiv`; `range(a, b)` is `pyRange`.
- Shift durations are the exact rationals from the `Duur` column of the
  template; `duration_min` is `round (duur * 60)` exactly as in the source.
- pandas `groupby` iterates group keys in sorted order while each group
  keeps the original row order; we realise the sorted unique key list with
  an insertion sort over the codepoint order pandas uses for strings.
- Rows of the dataframes become records; `employee_id` of an unassigned
  row is `none` and `dropna` is `List.filterMap`.
-/

namespace Rooster

/-! ### Generic helpers -/

/-- Codepoint-lexicographic strict order on char lists (the order pandas
uses to sort string group keys). -/
def charListLt : List Char → List Char → Bool
  | [], [] => false
  | [], _ :: _ => true
  | _ :: _, [] => false
  | a :: as, b :: bs =>
    if a.toNat < b.toNat then true
    else if b.toNat < a.toNat then false
    else charListLt as bs

/-- `a ≤ b` on strings in codepoint order. -/
def strLeB (a b : String) : Bool := !(charListLt b.data a.data)

/-- `a ≤ b` on integers, as a `Bool` comparator. -/
def intLeB (a b : Int) : Bool := decide (a ≤ b)

/-- `a ≤ b` on naturals, as a `Bool` comparator. -/
def natLeB (a b : Nat) : Bool := decide (a ≤ b)

/-- Lexicographic `≤` on (string, integer) pairs, the order of a pandas
groupby over two key columns. -/
def strIntLeB (a b : String × Int) : Bool :=
  if a.1 == b.1 then intLeB a.2 b.2 else strLeB a.1 b.1

/-- Insert into a sorted list (stable insertion sort step). -/
def insertSorted (le : α → α → Bool) (a : α) : List α → List α
  | [] => [a]
  | b :: bs => if le a b then a :: b :: bs else b :: insertSorted le a bs

/-- Insertion sort with comparator `le`. -/
def sortByB (le : α → α → Bool) (l : List α) : List α := l.foldr (insertSorted le) []

/-- Sorted list of the distinct values of `l`: the group keys of a pandas
groupby over the column `l`. -/
def sortedUnique [DecidableEq α] (le : α → α → Bool) (l : List α) : List α :=
  sortByB le l.dedup

theorem mem_insertSorted (le : α → α → Bool) (a b : α) (l : List α) :
    b ∈ insertSorted le a l ↔ b = a ∨ b ∈ l := by
  induction l with
  | nil => simp [insertSorted]
  | cons x xs ih =>
    by_cases h : le a x
    · simp [insertSorted, h]
    · simp only [insertSorted, h, if_false, Bool.false_eq_true, List.mem_cons, ih]
      tauto

theorem mem_sortByB (le : α → α → Bool) (b : α) (l : List α) :
    b ∈ sortByB le l ↔ b ∈ l := by
  induction l with
  | nil => simp [sortByB]
  | cons x xs ih =>
    simp only [sortByB, List.foldr] at *
    rw [mem_insertSorted]
    simp [ih]

theorem mem_sortedUnique [DecidableEq α] (le : α → α → Bool) (b : α) (l : List α) :
    b ∈ sortedUnique le l ↔ b ∈ l := by
  rw [sortedUnique, mem_sortByB, List.mem_dedup]

/-- Python `range(a, b)` over integers. -/
def pyRange (a b : Int) : List Int := (List.range (b - a).toNat).map (fun i => a + i)

/-- Python `str.lower()` on the ASCII range (all status texts are ASCII). -/
def pyLowerChar (c : Char) : Char :=
  if 'A' ≤ c ∧ c ≤ 'Z' then Char.ofNat (c.toNat + 32) else c

/-- Python `str.lower()`. -/
def pyLower (s : String) : String := String.mk (s.data.map pyLowerChar)

/-- Python `x.lstrip('0').split('-')[0]`: the worker id normalisation of
`preprocessing.py` lines 145 and 216. -/
def normalizeId (s : String) : String :=
  String.mk ((s.data.dropWhile (fun c => c == '0')).takeWhile (fun c => !(c == '-')))

/-- Python `x.split('.')[0] if '.' in x else x`: the employee id cleanup for
prior-period assignment rows (`preprocessing.py` line 61). -/
def normalizePrevId (s : String) : String :=
  String.mk (s.data.takeWhile (fun c => !(c == '.')))

theorem filter_filter_eq (p q : α → Bool) (l : List α) :
    (l.filter p).filter q = l.filter (fun a => p a && q a) := by
  induction l with
  | nil => rfl
  | cons x xs ih =>
    by_cases hp : p x <;> by_cases hq : q x <;> simp [List.filter_cons, hp, hq, ih]

theorem length_flatMap_of_single (f : α → List β) (p : α → Bool)
    (hf : ∀ a, (f a).length = if p a then 1 else 0) (l : List α) :
    (l.flatMap f).length = (l.filter p).length := by
  induction l with
  | nil => rfl
  | cons x xs ih =>
    simp only [List.flatMap_cons, List.length_append, ih, List.filter_cons]
    by_cases hx : p x
    · simp [hx, hf x]
      omega
    · simp [hx, hf x]

theorem le_foldl_max (l : List Int) (a : Int) : a ≤ l.foldl max a := by
  induction l generalizing a with
  | nil => simp
  | cons x xs ih => exact le_trans (le_max_left a x) (ih (max a x))

theorem mem_le_foldl_max (l : List Int) (a : Int) : ∀ x ∈ l, x ≤ l.foldl max a := by
  induction l generalizing a with
  | nil => simp
  | cons y ys ih =>
    intro x hx
    rcases List.mem_cons.mp hx with h | h
    · subst h
      exact le_trans (le_max_right a x) (le_foldl_max ys (max a x))
    · exact ih (max a y) x h

/-! ### Shift template and calendar expansion (`preprocessing.py` lines 14-52) -/

/-- One row of the `info_shifts` table: shift name, begin/end time, duration
in hours, the seven weekday flags Monday..Sunday, required qualifications. -/
structure TRow where
  name : String
  begintijd : Nat
  eindtijd : Nat
  duur : ℚ
  active : List Bool
  desk : List Nat
deriving DecidableEq

/-- The hard-coded weekly shift template `info_shifts`. -/
def infoShifts : List TRow :=
  [ ⟨"D1", 7*60, 15*60, 8, [true, true, true, true, true, true, true], [1, 2]⟩,
    ⟨"D2", 7*60+30, 15*60, 7.5, [true, true, true, true, true, true, true], [2]⟩,
    ⟨"D3", 7*60+30, 14*60, 6.5, [true, true, true, true, true, true, true], [3]⟩,
    ⟨"D4", 8*60+45, 12*60+45, 4, [true, true, true, false, true, false, true], [3]⟩,
    ⟨"FM", 8*60, 12*60+30, 4.5, [true, true, true, true, false, false, false], [6]⟩,
    ⟨"GD", 8*60, 14*60, 6, [true, true, true, true, true, true, true], [4]⟩,
    ⟨"KOK", 15*60, 19*60+30, 4.5, [true, true, true, true, true, true, true], [5]⟩,
    ⟨"A1", 15*60, 23*60, 8, [true, true, true, true, true, true, true], [2]⟩,
    ⟨"A2", 15*60+30, 22*60+30, 7, [true, true, true, true, true, true, true], [3]⟩,
    ⟨"A3", 18*60+30, 22*60+30, 4, [true, true, true, true, true, true, false], [3]⟩,
    ⟨"GA", 16*60, 22*60, 6, [true, true, true, true, true, true, true], [4]⟩,
    ⟨"N", 22*60+45, 7*60, 8.25, [true, true, true, true, true, true, true], [2]⟩ ]

/-- One entry of `shift_requirements`: a template row on one active weekday. -/
structure SReq where
  shift_name : String
  day_of_week : Nat
  start_time : Nat
  end_time : Nat
  qualification : List Nat
  duration : ℚ
deriving DecidableEq

/-- `shift_requirements` (lines 40-52): each template row expanded to its
active weekdays, weekdays in Monday..Sunday order. -/
def shiftRequirements : List SReq :=
  infoShifts.flatMap (fun t =>
    (List.range 7).filterMap (fun d =>
      if t.active.getD d false then
        some ⟨t.name, d, t.begintijd, t.eindtijd, t.desk, t.duur⟩
      else none))

/-- `duration_min` conversion (line 99): hours to rounded integer minutes. -/
def durMin (q : ℚ) : Int := round (q * 60)

/-- A dated shift instance (one row of the `shifts` dataframe). -/
structure Inst where
  shift_id : Nat
  shift_name : String
  day_of_week : Nat
  start_time : Nat
  end_time : Nat
  qualification : List Nat
  duration : ℚ
  week : Nat
  absolute_day : Nat
  shift_date : Int
  global_week : Int
  duration_min : Int
  is_night : Bool
deriving DecidableEq

/-- `all_shift_instances` (lines 82-99): every requirement dated into every
horizon week.  `shift_date = start_date + week*7 + day_of_week`,
`global_week = (shift_date - global_start_date) // 7 + 1`,
`duration_min = round(duration * 60)`, `is_night = (shift_name == 'N')`.
`shift_id` is assigned later, after the KOK/FM filter. -/
def allShiftInstances (start_date global_start_date : Int) (num_weeks : Nat) : List Inst :=
  (List.range num_weeks).flatMap (fun week =>
    shiftRequirements.map (fun r =>
      { shift_id := 0
        shift_name := r.shift_name
        day_of_week := r.day_of_week
        start_time := r.start_time
        end_time := r.end_time
        qualification := r.qualification
        duration := r.duration
        week := week + 1
        absolute_day := week * 7 + r.day_of_week
        shift_date := start_date + ((week * 7 + r.day_of_week : Nat) : Int)
        global_week := ((start_date + ((week * 7 + r.day_of_week : Nat) : Int))
          - global_start_date).fdiv 7 + 1
        duration_min := durMin r.duration
        is_night := r.shift_name == "N" }))

/-- `reset_index` followed by `shift_id := index` (lines 121-126). -/
def reindexFrom (i : Nat) : List Inst → List Inst
  | [] => []
  | s :: rest => { s with shift_id := i } :: reindexFrom (i + 1) rest

/-- Dense re-assignment of shift ids after a filter. -/
def reindex (l : List Inst) : List Inst := reindexFrom 0 l

/-- The administrative-only reference set `shifts_constant` (lines 118-122):
only the KOK and FM instances, densely re-indexed. -/
def shiftsConstant (start_date global_start_date : Int) (num_weeks : Nat) : List Inst :=
  reindex ((allShiftInstances start_date global_start_date num_weeks).filter
    (fun s => s.shift_name == "KOK" || s.shift_name == "FM"))

/-- The assignable `shifts` population (lines 124-126): KOK and FM removed,
densely re-indexed. -/
def assignableShifts (start_date global_start_date : Int) (num_weeks : Nat) : List Inst :=
  reindex ((allShiftInstances start_date global_start_date num_weeks).filter
    (fun s => !(s.shift_name == "KOK" || s.shift_name == "FM")))

/-! ### Continuity bootstrap (`preprocessing.py` lines 128-137) -/

/-- The synthesized prior-period table built when `prev_assignments` is None
or empty: a copy of the assignable `shifts`, kept only where
`shift_date < start_date` and `shift_date >= start_date - 28`, with
`global_week` decremented by 4 and the employee column set to `pd.NA`
(`none`). -/
def synthesizedPrev (start_date global_start_date : Int) (num_weeks : Nat) :
    List (Inst × Option String) :=
  ((((assignableShifts start_date global_start_date num_weeks).filter
      (fun s => decide (s.shift_date < start_date))).filter
      (fun s => decide (start_date - 28 ≤ s.shift_date))).map
    (fun s => ({ s with global_week := s.global_week - 4 }, (none : Option String))))

theorem reindexFrom_shift_date (l : List Inst) :
    ∀ i s, s ∈ reindexFrom i l → ∃ x ∈ l, s.shift_date = x.shift_date := by
  induction l with
  | nil => intro i s h; simp [reindexFrom] at h
  | cons y ys ih =>
    intro i s h
    rcases List.mem_cons.mp h with h | h
    · exact ⟨y, List.mem_cons_self y ys, by rw [h]⟩
    · obtain ⟨x, hx, hdate⟩ := ih (i + 1) s h
      exact ⟨x, List.mem_cons_of_mem y hx, hdate⟩

theorem mem_allShiftInstances_date (start_date global_start_date : Int) (num_weeks : Nat) :
    ∀ s ∈ allShiftInstances start_date global_start_date num_weeks,
      start_date ≤ s.shift_date := by
  intro s hs
  simp only [allShiftInstances, List.mem_flatMap, List.mem_map, List.mem_range] at hs
  obtain ⟨week, _, r, _, rfl⟩ := hs
  show start_date ≤ start_date + ((week * 7 + r.day_of_week : Nat) : Int)
  have h0 : (0 : Int) ≤ ((week * 7 + r.day_of_week : Nat) : Int) := Int.natCast_nonneg _
  omega

theorem mem_assignableShifts_date (start_date global_start_date : Int) (num_weeks : Nat) :
    ∀ s ∈ assignableShifts start_date global_start_date num_weeks,
      start_date ≤ s.shift_date := by
  intro s hs
  obtain ⟨x, hx, hdate⟩ := reindexFrom_shift_date _ 0 s hs
  rw [hdate]
  exact mem_allShiftInstances_date start_date global_start_date num_weeks x
    (List.mem_of_mem_filter hx)

/-- C2: the synthesized look-back is in fact always the empty table.  Every
horizon shift copy satisfies `shift_date >= start_date`, so the filter
`shift_date < start_date` at `preprocessing.py` line 132 keeps nothing; the
code changes no dates before filtering, contradicting its own comment
"Change date range to 4 weeks before start_date" and the claimed non-empty
4-week look-back. -/
theorem C2_code_bug (start_date global_start_date : Int) (num_weeks : Nat) :
    synthesizedPrev start_date global_start_date num_weeks = [] := by
  unfold synthesizedPrev
  have h1 : (assignableShifts start_date global_start_date num_weeks).filter
      (fun s => decide (s.shift_date < start_date)) = [] := by
    rw [List.filter_eq_nil_iff]
    intro s hs
    have := mem_assignableShifts_date start_date global_start_date num_weeks s hs
    simp only [decide_eq_true_eq]
    omega
  rw [h1]
  rfl

/-! ### Global week continuity (`preprocessing.py` lines 54-93)

With real prior-period assignments the code computes
`global_start_date = Monday of the earliest prior date`,
`prev_assignments['global_week'] = (shift_date - global_start_date) // 7`
(line 69-71), `start_date = latest prior date + 1` (line 74), and for every
new horizon instance `global_week = (shift_date - global_start_date) // 7 + 1`
(line 86).  Note the `+ 1` applied only on the horizon side. -/

/-- One real prior-period assignment row (only the fields the global-week
arithmetic touches). -/
structure PrevIn where
  employee_id : String
  shift_date : Int
deriving DecidableEq

/-- Snap a date back to the Monday of its week (line 66):
`d -= weekday(d)` with `weekday(d) = d % 7` under our Monday epoch. -/
def mondayOf (d : Int) : Int := d - d % 7

/-- `prev_assignments['shift_date'].min()` over a non-empty row list. -/
def prevListMin (p : PrevIn) (ps : List PrevIn) : Int :=
  (ps.map (fun r => r.shift_date)).foldl min p.shift_date

/-- `prev_assignments['shift_date'].max()` over a non-empty row list. -/
def prevListMax (p : PrevIn) (ps : List PrevIn) : Int :=
  (ps.map (fun r => r.shift_date)).foldl max p.shift_date

/-- `global_start_date` (lines 64-66). -/
def globalStartOf (p : PrevIn) (ps : List PrevIn) : Int := mondayOf (prevListMin p ps)

/-- `start_date` (line 74): one day after the latest prior assignment. -/
def startDateOf (p : PrevIn) (ps : List PrevIn) : Int := prevListMax p ps + 1

/-- The prior-period `global_week` formula (lines 69-71). -/
def prevGW (global_start_date d : Int) : Int := (d - global_start_date).fdiv 7

/-- The `(shift_date, global_week)` pairs of the prior-period rows. -/
def prevRecords (p : PrevIn) (ps : List PrevIn) : List (Int × Int) :=
  (p :: ps).map (fun r => (r.shift_date, prevGW (globalStartOf p ps) r.shift_date))

/-- The `(shift_date, global_week)` pairs of the new-horizon shift instances
returned by `preprocess_data`. -/
def horizonRecords (p : PrevIn) (ps : List PrevIn) (num_weeks : Nat) : List (Int × Int) :=
  (assignableShifts (startDateOf p ps) (globalStartOf p ps) num_weeks).map
    (fun s => (s.shift_date, s.global_week))

/-- Every dated record `preprocess_data` produces in the real-prior branch:
prior-period rows followed by new-horizon instances. -/
def datedRecords (p : PrevIn) (ps : List PrevIn) (num_weeks : Nat) : List (Int × Int) :=
  prevRecords p ps ++ horizonRecords p ps num_weeks

theorem reindexFrom_date_gw (l : List Inst) :
    ∀ i s, s ∈ reindexFrom i l →
      ∃ x ∈ l, s.shift_date = x.shift_date ∧ s.global_week = x.global_week := by
  induction l with
  | nil => intro i s h; simp [reindexFrom] at h
  | cons y ys ih =>
    intro i s h
    rcases List.mem_cons.mp h with h | h
    · exact ⟨y, List.mem_cons_self y ys, by rw [h], by rw [h]⟩
    · obtain ⟨x, hx, hd, hg⟩ := ih (i + 1) s h
      exact ⟨x, List.mem_cons_of_mem y hx, hd, hg⟩

theorem mem_allShiftInstances_gw (start_date global_start_date : Int) (num_weeks : Nat) :
    ∀ s ∈ allShiftInstances start_date global_start_date num_weeks,
      s.global_week = (s.shift_date - global_start_date).fdiv 7 + 1 := by
  intro s hs
  simp only [allShiftInstances, List.mem_flatMap, List.mem_map, List.mem_range] at hs
  obtain ⟨week, _, r, _, rfl⟩ := hs
  rfl

theorem mem_assignableShifts_gw (start_date global_start_date : Int) (num_weeks : Nat) :
    ∀ s ∈ assignableShifts start_date global_start_date num_weeks,
      s.global_week = (s.shift_date - global_start_date).fdiv 7 + 1 := by
  intro s hs
  obtain ⟨x, hx, hd, hg⟩ := reindexFrom_date_gw _ 0 s hs
  rw [hd, hg]
  exact mem_allShiftInstances_gw start_date global_start_date num_weeks x
    (List.mem_of_mem_filter hx)

theorem mem_prevRecords_char (p : PrevIn) (ps : List PrevIn) (d g : Int)
    (h : (d, g) ∈ prevRecords p ps) :
    g = prevGW (globalStartOf p ps) d ∧ d ≤ prevListMax p ps := by
  simp only [prevRecords, List.mem_map] at h
  obtain ⟨r, hr, heq⟩ := h
  have hd : r.shift_date = d := congrArg Prod.fst heq
  have hg : prevGW (globalStartOf p ps) r.shift_date = g := congrArg Prod.snd heq
  constructor
  · rw [← hg, hd]
  · rw [← hd]
    rcases List.mem_cons.mp hr with h | h
    · rw [h]
      exact le_foldl_max _ _
    · exact mem_le_foldl_max _ _ r.shift_date (List.mem_map_of_mem (fun r => r.shift_date) h)

theorem mem_horizonRecords_char (p : PrevIn) (ps : List PrevIn) (num_weeks : Nat)
    (d g : Int) (h : (d, g) ∈ horizonRecords p ps num_weeks) :
    g = prevGW (globalStartOf p ps) d + 1 ∧ prevListMax p ps + 1 ≤ d := by
  simp only [horizonRecords, List.mem_map] at h
  obtain ⟨s, hs, heq⟩ := h
  have hd : s.shift_date = d := congrArg Prod.fst heq
  have hg : s.global_week = g := congrArg Prod.snd heq
  constructor
  · rw [← hg, ← hd, mem_assignableShifts_gw _ _ _ s hs]
    rfl
  · rw [← hd]
    exact mem_assignableShifts_date _ _ _ s hs

theorem globalStartOf_mod (p : PrevIn) (ps : List PrevIn) :
    globalStartOf p ps % 7 = 0 := by
  unfold globalStartOf mondayOf
  omega

theorem prevGW_eq_ediv (global_start_date d : Int) :
    prevGW global_start_date d = (d - global_start_date) / 7 :=
  Int.fdiv_eq_ediv _ (by norm_num)

/-- C3 as frozen is false: the code computes prior-period and new-horizon
`global_week` from the same epoch Monday but adds 1 only on the horizon
side, so two records in the same epoch-anchored calendar week on opposite
sides of the boundary disagree.  Concretely, with prior assignments on days
0, 1, 2 (Monday..Wednesday) the horizon starts on day 3 (Thursday): the
prior record of day 2 has `global_week = 0` while the horizon record of day
3 — the same anchored week — has `global_week = 1`. -/
theorem C3_counterexample :
    (2, 0) ∈ datedRecords ⟨"9", 0⟩ [⟨"9", 1⟩, ⟨"9", 2⟩] 4
    ∧ (3, 1) ∈ datedRecords ⟨"9", 0⟩ [⟨"9", 1⟩, ⟨"9", 2⟩] 4
    ∧ mondayOf 2 = mondayOf 3
    ∧ (0 : Int) ≠ 1 := by
  refine ⟨by decide, by decide, by decide, by decide⟩

/-- C3 amended: `global_week` is monotone in calendar date across all dated
records (prior and horizon) sharing the one epoch Monday; but across the
prior/horizon boundary the horizon value of a date equals the prior-period
formula plus one, so two records in the same epoch-anchored calendar week on
opposite sides differ by exactly 1 (horizon higher) instead of being
equal. -/
theorem C3_amended (p : PrevIn) (ps : List PrevIn) (num_weeks : Nat) :
    (∀ d1 g1 d2 g2, (d1, g1) ∈ datedRecords p ps num_weeks →
        (d2, g2) ∈ datedRecords p ps num_weeks → d1 ≤ d2 → g1 ≤ g2)
    ∧ (∀ d1 g1 d2 g2, (d1, g1) ∈ prevRecords p ps →
        (d2, g2) ∈ horizonRecords p ps num_weeks → mondayOf d1 = mondayOf d2 →
        g2 = g1 + 1) := by
  have hgs : globalStartOf p ps % 7 = 0 := globalStartOf_mod p ps
  constructor
  · intro d1 g1 d2 g2 h1 h2 hle
    rcases List.mem_append.mp h1 with h1 | h1 <;>
      rcases List.mem_append.mp h2 with h2 | h2
    · obtain ⟨e1, b1⟩ := mem_prevRecords_char p ps d1 g1 h1
      obtain ⟨e2, b2⟩ := mem_prevRecords_char p ps d2 g2 h2
      rw [e1, e2, prevGW_eq_ediv, prevGW_eq_ediv]
      omega
    · obtain ⟨e1, b1⟩ := mem_prevRecords_char p ps d1 g1 h1
      obtain ⟨e2, b2⟩ := mem_horizonRecords_char p ps num_weeks d2 g2 h2
      rw [e1, e2, prevGW_eq_ediv, prevGW_eq_ediv]
      omega
    · obtain ⟨e1, b1⟩ := mem_horizonRecords_char p ps num_weeks d1 g1 h1
      obtain ⟨e2, b2⟩ := mem_prevRecords_char p ps d2 g2 h2
      omega
    · obtain ⟨e1, b1⟩ := mem_horizonRecords_char p ps num_weeks d1 g1 h1
      obtain ⟨e2, b2⟩ := mem_horizonRecords_char p ps num_weeks d2 g2 h2
      rw [e1, e2, prevGW_eq_ediv, prevGW_eq_ediv]
      omega
  · intro d1 g1 d2 g2 h1 h2 hmon
    obtain ⟨e1, b1⟩ := mem_prevRecords_char p ps d1 g1 h1
    obtain ⟨e2, b2⟩ := mem_horizonRecords_char p ps num_weeks d2 g2 h2
    rw [e1, e2, prevGW_eq_ediv, prevGW_eq_ediv]
    unfold mondayOf at hmon
    omega

/-- Witness instantiating `C3_amended`: monotonicity at the concrete pair
of records of `C3_counterexample`, and the exact `+1` offset there. -/
theorem C3_amended_witness : (0 : Int) ≤ 1 ∧ (1 : Int) = 0 + 1 := by
  constructor
  · exact (C3_amended ⟨"9", 0⟩ [⟨"9", 1⟩, ⟨"9", 2⟩] 1).1 2 0 3 1
      (by decide) (by decide) (by decide)
  · exact (C3_amended ⟨"9", 0⟩ [⟨"9", 1⟩, ⟨"9", 2⟩] 1).2 2 0 3 1
      (by decide) (by decide) (by decide)

/-! ### Worker normalisation (`preprocessing.py` lines 140-204) -/

/-- A raw worker roster row, restricted to the columns the claims touch. -/
structure RawWorker where
  medewerker_id : String
  wensen : String
  deskundigheid : Nat
  contract_soort : String
  contracturen : Option ℚ
  max_werkdgn_pw : Option Nat
deriving DecidableEq

/-- Qualification unpacking (lines 163-174): a value below 10 stays a
single code, otherwise the decimal digits of `int(value)` become separate
codes, `[int(x) for x in str(int(v))]`. -/
def unpackDesk (n : Nat) : List Nat :=
  if n < 10 then [n] else (Nat.toDigits 10 n).map (fun c => c.toNat - 48)

/-- The qualification implication (line 184): append 3 when 7 is present
and 3 is absent. -/
def applyDeskRules (q : List Nat) : List Nat :=
  if 7 ∈ q ∧ 3 ∉ q then q ++ [3] else q

/-- `contracturen` after the on-call forcing (line 187) and `fillna(0)`
(line 193): the nominal contract hours baseline. -/
def nominalContractHours (w : RawWorker) : ℚ :=
  if w.contract_soort = "oproep" then 0 else w.contracturen.getD 0

/-- `max_days_per_week` (line 190): `max_werkdgn_pw.fillna(0)`. -/
def maxDaysOf (w : RawWorker) : Nat := w.max_werkdgn_pw.getD 0

/-- `contract_hours` after the zero fallback (line 196):
`max_days_per_week * 9` when the nominal hours are 0. -/
def contractHoursOf (w : RawWorker) : ℚ :=
  if nominalContractHours w = 0 then (maxDaysOf w : ℚ) * 9 else nominalContractHours w

/-- `contract_minutes` (line 198): `(contract_hours * 60).round()`. -/
def contractMinutesOf (w : RawWorker) : Int := round (contractHoursOf w * 60)

/-- A normalised worker record (the columns the claims touch). -/
structure PWorker where
  medewerker_id : String
  deskundigheid : List Nat
  max_days_per_week : Nat
  contract_minutes : Int
deriving DecidableEq

/-- The worker normalisation pipeline of `preprocess_data` (lines 140-198):
drop opted-out rows (`wensen == 'niet plannen'`, line 148), drop rows whose
unpacked qualification set contains 5 or 6 (line 181), then apply the 7⇒3
implication and the capacity normalisation. -/
def processWorkers (ws : List RawWorker) : List PWorker :=
  ((ws.filter (fun w => decide (¬ w.wensen = "niet plannen"))).filter
      (fun w => decide (¬ (5 ∈ unpackDesk w.deskundigheid ∨ 6 ∈ unpackDesk w.deskundigheid)))).map
    (fun w =>
      { medewerker_id := normalizeId w.medewerker_id
        deskundigheid := applyDeskRules (unpackDesk w.deskundigheid)
        max_days_per_week := maxDaysOf w
        contract_minutes := contractMinutesOf w })

/-- C9: every worker surviving normalisation has a qualification set free of
the excluded codes 5 and 6, and containing 3 whenever it contains 7. -/
theorem C9_theorem (ws : List RawWorker) (w : PWorker) (h : w ∈ processWorkers ws) :
    5 ∉ w.deskundigheid ∧ 6 ∉ w.deskundigheid ∧
      (7 ∈ w.deskundigheid → 3 ∈ w.deskundigheid) := by
  simp only [processWorkers, List.mem_map] at h
  obtain ⟨x, hx, rfl⟩ := h
  have hf := List.of_mem_filter hx
  have h56 : ¬ (5 ∈ unpackDesk x.deskundigheid ∨ 6 ∈ unpackDesk x.deskundigheid) :=
    of_decide_eq_true hf
  push_neg at h56
  obtain ⟨h5, h6⟩ := h56
  simp only [applyDeskRules]
  by_cases hc : 7 ∈ unpackDesk x.deskundigheid ∧ 3 ∉ unpackDesk x.deskundigheid
  · rw [if_pos hc]
    refine ⟨?_, ?_, ?_⟩
    · simp [List.mem_append, h5]
    · simp [List.mem_append, h6]
    · intro _
      simp [List.mem_append]
  · rw [if_neg hc]
    push_neg at hc
    exact ⟨h5, h6, hc⟩

/-- A concrete raw worker with packed qualification code 37. -/
def rw9 : RawWorker := ⟨"0042", "ja", 37, "vast", some 20, some 4⟩

/-- The normalised record `processWorkers [rw9]` produces for `rw9`. -/
def pw9 : PWorker :=
  { medewerker_id := normalizeId "0042"
    deskundigheid := applyDeskRules (unpackDesk 37)
    max_days_per_week := maxDaysOf rw9
    contract_minutes := contractMinutesOf rw9 }

/-- Witness instantiating `C9_theorem` on a concrete worker. -/
theorem C9_witness :
    5 ∉ pw9.deskundigheid ∧ 6 ∉ pw9.deskundigheid ∧
      (7 ∈ pw9.deskundigheid → 3 ∈ pw9.deskundigheid) :=
  C9_theorem [rw9] pw9 (List.mem_singleton.mpr rfl)

/-- C5: an on-call (`oproep`) contract forces the nominal contract-hour
baseline to 0 (line 187), and zero-or-missing reported contract hours fall
back to `max_days_per_week × 9` hours, i.e. `max_days_per_week × 540`
minutes (lines 196-198). -/
theorem C5_theorem (w : RawWorker) :
    (w.contract_soort = "oproep" → nominalContractHours w = 0)
    ∧ ((w.contracturen = none ∨ w.contracturen = some 0) →
        contractMinutesOf w = (maxDaysOf w : Int) * 540) := by
  constructor
  · intro h
    simp [nominalContractHours, h]
  · intro h
    have hn : nominalContractHours w = 0 := by
      unfold nominalContractHours
      rcases h with h | h <;> by_cases ho : w.contract_soort = "oproep" <;> simp [ho, h]
    unfold contractMinutesOf contractHoursOf
    rw [if_pos hn]
    have hcast : ((maxDaysOf w : ℚ) * 9) * 60 = ((540 * maxDaysOf w : ℕ) : ℚ) := by
      push_cast
      ring
    rw [hcast, round_natCast]
    push_cast
    ring

/-- Witness instantiating `C5_theorem`: an on-call worker with missing
reported hours and 4 allowed work days per week. -/
theorem C5_witness :
    nominalContractHours ⟨"7", "ja", 2, "oproep", none, some 4⟩ = 0
    ∧ contractMinutesOf ⟨"7", "ja", 2, "oproep", none, some 4⟩ = 4 * 540 := by
  have h := C5_theorem ⟨"7", "ja", 2, "oproep", none, some 4⟩
  constructor
  · exact h.1 rfl
  · have h2 := h.2 (Or.inl rfl)
    simpa [maxDaysOf] using h2

/-! ### Fixed-commitment subtraction (`preprocessing.py` lines 213-241) -/

/-- One row of the recurring fixed-commitment table `df_vastrooster`. -/
structure VastRow where
  medewerker_id : String
  dag : String
  dienst : String
  weekvolgnr : Int
deriving DecidableEq

/-- `day_map_const` (line 218): Dutch weekday name to index. -/
def dayMapConst (dag : String) : Option Nat :=
  if dag == "maandag" then some 0
  else if dag == "dinsdag" then some 1
  else if dag == "woensdag" then some 2
  else if dag == "donderdag" then some 3
  else if dag == "vrijdag" then some 4
  else if dag == "zaterdag" then some 5
  else if dag == "zondag" then some 6
  else none

/-- `find_shift_id` (lines 223-225): first `shifts_constant` row with the
same shift name and weekday, if any. -/
def findShiftId (sc : List Inst) (dienst : String) (dow : Nat) : Option Nat :=
  ((sc.filter (fun s => s.shift_name == dienst && s.day_of_week == dow)).head?).map
    (fun s => s.shift_id)

/-- The resolved `shift_id` list of one worker in `df_const_unavail`
(lines 226, 236-237), unresolvable rows dropped (`dropna`). -/
def vastShiftIds (sc : List Inst) (vast : List VastRow) (emp : String) : List Nat :=
  (vast.filter (fun v => normalizeId v.medewerker_id == emp)).filterMap
    (fun v => (dayMapConst v.dag).bind (fun d => findShiftId sc v.dienst d))

/-- `hours_to_subtract` (line 238): total `duration_min` of the
`shifts_constant` rows whose id is in the resolved list (`isin`, so
duplicate ids count once). -/
def hoursToSubtract (sc : List Inst) (ids : List Nat) : Int :=
  ((sc.filter (fun s => ids.contains s.shift_id)).map (fun s => s.duration_min)).sum

/-- The worker's `contract_minutes` after the unclamped subtraction of
line 239. -/
def contractMinutesAfterVast (base : Int) (sc : List Inst) (vast : List VastRow)
    (emp : String) : Int :=
  base - hoursToSubtract sc (vastShiftIds sc vast emp)

/-- An on-call worker with no reported hours and no max-days value: the
normaliser gives them `contract_minutes = 0`. -/
def rw6 : RawWorker := ⟨"7", "ja", 2, "oproep", none, none⟩

/-- The administrative reference shifts of a 1-week horizon starting at the
epoch. -/
def sc6 : List Inst := shiftsConstant 0 0 1

/-- One fixed commitment: worker 7 cooks (KOK) every Monday. -/
def vast6 : List VastRow := [⟨"7", "maandag", "KOK", 1⟩]

/-- C6 as frozen is false: the fixed-commitment subtraction (line 239) has
no lower clamp, so a worker whose commitments exceed their contract cap
ends with negative `contract_minutes`.  Concretely: an on-call worker with
cap 0 and one weekly KOK commitment (270 minutes) ends at -270. -/
theorem C6_counterexample :
    contractMinutesAfterVast (contractMinutesOf rw6) sc6 vast6 "7" < 0 := by
  have h0 : contractMinutesOf rw6 = 0 := by
    simp [contractMinutesOf, contractHoursOf, nominalContractHours, maxDaysOf, rw6]
  have hids : vastShiftIds sc6 vast6 "7" = [4] := by decide
  have hsum : hoursToSubtract sc6 [4] = durMin (4.5 : ℚ) + 0 := rfl
  have hdm : durMin (4.5 : ℚ) = 270 := by
    unfold durMin
    rw [round_eq]
    norm_num
  unfold contractMinutesAfterVast
  rw [h0, hids, hsum, hdm]
  norm_num

/-- C6 amended: before the fixed-commitment subtraction the normaliser
always yields `contract_minutes ≥ 0` (for non-negative reported contract
hours); the subtraction itself is unclamped, so the invariant can fail
afterwards, as `C6_counterexample` shows. -/
theorem C6_amended (w : RawWorker) (h : ∀ q, w.contracturen = some q → 0 ≤ q) :
    0 ≤ contractMinutesOf w := by
  have hnn : 0 ≤ contractHoursOf w := by
    unfold contractHoursOf
    by_cases hn : nominalContractHours w = 0
    · rw [if_pos hn]
      positivity
    · rw [if_neg hn]
      unfold nominalContractHours at hn ⊢
      by_cases ho : w.contract_soort = "oproep"
      · simp [ho] at hn
      · rw [if_neg ho] at hn ⊢
        cases hc : w.contracturen with
        | none => simp
        | some q => simpa [hc] using h q hc
  unfold contractMinutesOf
  rw [round_eq]
  have hfl : ⌊(0 : ℚ)⌋ ≤ ⌊contractHoursOf w * 60 + 1/2⌋ :=
    Int.floor_le_floor (by linarith)
  simpa using hfl

/-- Witness instantiating `C6_amended` on a worker with 20 reported hours. -/
theorem C6_amended_witness : 0 ≤ contractMinutesOf ⟨"8", "ja", 2, "vast", some 20, some 4⟩ :=
  C6_amended _ (by
    intro q hq
    injection hq with h
    rw [← h]
    norm_num)

/-! ### Compliance validator (`src/app/validate.py`)

The validator reads `data['shifts']`, `data['workers']`, `data['onb']` and
`result['assignments_df']`.  Rows become records; a missing
`employee_id` is `none` and line 22's `dropna` is a `filterMap`.  pandas
`groupby` iterates keys in sorted order (codepoint order for strings,
lexicographic for pairs) while groups keep row order.  Where the source
would raise on a missing lookup (`.iloc[0]` / `.loc[sid]` on an absent
key) the embedding skips the row; no claim exercises those crashes. -/

/-- One row of `result['assignments_df']` (employee possibly unassigned). -/
structure ARow where
  shift_id : Nat
  employee_id : Option String
  shift_date : Int
  week : Int
  is_night : Bool
  duration_min : Int
  start_time : Nat
  end_time : Nat
  shift_name : String
deriving DecidableEq

/-- An assignment row after `dropna(subset=['employee_id'])` (line 22). -/
structure VRow where
  shift_id : Nat
  employee_id : String
  shift_date : Int
  week : Int
  is_night : Bool
  duration_min : Int
  start_time : Nat
  end_time : Nat
  shift_name : String
deriving DecidableEq

/-- Line 22: drop the rows with no assigned employee. -/
def dropnaAssignments (l : List ARow) : List VRow :=
  l.filterMap (fun r => r.employee_id.map (fun e =>
    ⟨r.shift_id, e, r.shift_date, r.week, r.is_night, r.duration_min,
      r.start_time, r.end_time, r.shift_name⟩))

/-- A worker row as the validator reads it. -/
structure VWorker where
  medewerker_id : String
  max_days_per_week : Nat
  contract_minutes : Int
  leeftijd : Int
  deskundigheid : List Nat
deriving DecidableEq

/-- A row of `data['shifts']` (the fields the validator reads). -/
structure SRow where
  shift_id : Nat
  shift_name : String
  week : Int
  day_of_week : Nat
  is_night : Bool
  qualification : List Nat
deriving DecidableEq

/-- A processed unavailability row (`data['onb']`). -/
structure OnbRow where
  medewerker_id : String
  datum : Int
  beschikbaarheid : String
  tijd_vanaf : Option Nat
  tijd_tm : Option Nat
deriving DecidableEq

/-- The violation messages, one constructor per `errors.append` site, the
interpolated values kept as structured fields. -/
inductive Violation where
  | rule1 (sid : Nat) (emps : List String)
  | rule2 (emp : String) (date : Int) (sids : List Nat)
  | rule3 (emp : String) (nextDay : Int) (nightDate : Int)
  | rule4 (emp : String) (week : Int) (workedDays : Nat) (maxDays : Nat)
  | rule5 (emp : String) (total : Int) (allowed : Int) (numWeeks : Nat)
  | rule6full (emp : String) (date : Int) (sid : Nat)
  | rule6overlap (emp : String) (date : Int) (sid : Nat) (s e su eu : Nat)
  | rule71 (emp : String) (maxConsec : Nat) (window : List Int)
  | rule72 (emp : String) (sids : List Nat) (d0 d1 d2 : Int)
  | rule73 (emp : String) (count : Nat) (startWeek : Int)
  | rule74 (emp : String) (age : Int) (sids : List Nat)
  | rule8 (emp : String) (quals : List Nat) (sid : Nat)
  | rule91 (sid : Nat) (date : Int)
  | rule92 (sid : Nat) (date : Int)
  | rule93 (sid : Nat) (date : Int)
  | rule94 (sid : Nat) (date : Int)
  | rule95long (block : List Int)
  | rule95rest (block : List Int)
  | rule96len (len : Nat) (block : List Int)
  | rule96rest (block : List Int)
  | rule97 (count : Nat) (week : Int)
  | rule98count (count : Nat) (week : Int)
  | rule98late (sid : Nat) (name : String)
deriving DecidableEq

/-- Sorted unique string keys of a pandas groupby. -/
def groupKeysStr (l : List String) : List String := sortedUnique strLeB l

/-- Sorted unique natural-number keys. -/
def groupKeysNat (l : List Nat) : List Nat := sortedUnique natLeB l

/-- Sorted unique integer keys. -/
def groupKeysInt (l : List Int) : List Int := sortedUnique intLeB l

/-- Sorted unique (string, integer) keys. -/
def groupKeysStrInt (l : List (String × Int)) : List (String × Int) :=
  sortedUnique strIntLeB l

/-- `workers.loc[workers['medewerker_id'] == emp, col].iloc[0]`. -/
def lookupWorker (workers : List VWorker) (emp : String) : Option VWorker :=
  (workers.filter (fun w => w.medewerker_id == emp)).head?

/-- `shifts_lookup.loc[sid]` (line 25). -/
def lookupShift (shifts : List SRow) (sid : Nat) : Option SRow :=
  (shifts.filter (fun s => s.shift_id == sid)).head?

/-- Ascending sort of dates, `sort_values('shift_date')`. -/
def sortInts (l : List Int) : List Int := sortByB intLeB l

/-- `COA_7_1_exempt` (line 27). -/
def coa71Exempt : List String := ["602859"]

/-- `CAO_7_4_exempt` (line 28). -/
def cao74Exempt : List String := ["2097", "602859"]

/-- Rule 1 (lines 31-33): a shift assigned to more than one employee. -/
def rule1Errors (rows : List VRow) : List Violation :=
  (groupKeysNat (rows.map (fun r => r.shift_id))).filterMap (fun sid =>
    let group := rows.filter (fun r => r.shift_id == sid)
    if 1 < group.length then
      some (Violation.rule1 sid (group.map (fun r => r.employee_id)))
    else none)

/-- Rule 2 (lines 36-38): more than one shift per employee per date. -/
def rule2Errors (rows : List VRow) : List Violation :=
  (groupKeysStrInt (rows.map (fun r => (r.employee_id, r.shift_date)))).filterMap (fun k =>
    let group := rows.filter (fun r => r.employee_id == k.1 && r.shift_date == k.2)
    if 1 < group.length then
      some (Violation.rule2 k.1 k.2 (group.map (fun r => r.shift_id)))
    else none)

/-- Rule 3 (lines 41-48): a non-night shift on the day after a night. -/
def rule3Errors (rows : List VRow) : List Violation :=
  (groupKeysStr (rows.map (fun r => r.employee_id))).flatMap (fun emp =>
    let group := rows.filter (fun r => r.employee_id == emp)
    (group.filter (fun r => r.is_night)).filterMap (fun ns =>
      let nextDay := ns.shift_date + 1
      let nextDayShifts := (group.filter (fun r => r.shift_date == nextDay)).filter
        (fun r => r.is_night == false)
      if 0 < nextDayShifts.length then
        some (Violation.rule3 emp nextDay ns.shift_date)
      else none))

/-- Rule 4 (lines 51-56): distinct worked dates per week over the max. -/
def rule4Errors (workers : List VWorker) (rows : List VRow) : List Violation :=
  (groupKeysStr (rows.map (fun r => r.employee_id))).flatMap (fun emp =>
    match lookupWorker workers emp with
    | none => []
    | some w =>
      let group := rows.filter (fun r => r.employee_id == emp)
      (groupKeysInt (group.map (fun r => r.week))).filterMap (fun wk =>
        let weekGroup := group.filter (fun r => r.week == wk)
        let workedDays := (weekGroup.map (fun r => r.shift_date)).dedup.length
        if w.max_days_per_week < workedDays then
          some (Violation.rule4 emp wk workedDays w.max_days_per_week)
        else none))

/-- `assignments_df['week'].nunique()` (line 59). -/
def numWeeksOf (rows : List VRow) : Nat := (rows.map (fun r => r.week)).dedup.length

/-- One employee's total assigned minutes (line 62). -/
def totalMinutesOf (rows : List VRow) (emp : String) : Int :=
  ((rows.filter (fun r => r.employee_id == emp)).map (fun r => r.duration_min)).sum

/-- Rule 5 (lines 58-68): total minutes over `contract_minutes` times the
number of distinct assigned weeks. -/
def rule5Errors (workers : List VWorker) (rows : List VRow) : List Violation :=
  (groupKeysStr (rows.map (fun r => r.employee_id))).filterMap (fun emp =>
    match lookupWorker workers emp with
    | none => none
    | some w =>
      if w.contract_minutes * (numWeeksOf rows : Int) < totalMinutesOf rows emp then
        some (Violation.rule5 emp (totalMinutesOf rows emp)
          (w.contract_minutes * (numWeeksOf rows : Int)) (numWeeksOf rows))
      else none)

/-- The blocking predicate of rule 6: a record with a missing bound blocks
the whole date (line 89), otherwise the half-open overlap test of line 93. -/
def blocksShift (r : OnbRow) (s : VRow) : Bool :=
  match r.tijd_vanaf, r.tijd_tm with
  | some su, some eu => !(decide (s.end_time ≤ su) || decide (eu ≤ s.start_time))
  | _, _ => true

/-- Rule 6, one (record, assigned shift) pair (lines 85-98). -/
def rule6Pair (r : OnbRow) (sr : VRow) : List Violation :=
  if sr.shift_date == r.datum then
    match r.tijd_vanaf, r.tijd_tm with
    | some su, some eu =>
      if !(decide (sr.end_time ≤ su) || decide (eu ≤ sr.start_time)) then
        [Violation.rule6overlap r.medewerker_id r.datum sr.shift_id
          sr.start_time sr.end_time su eu]
      else []
    | _, _ => [Violation.rule6full r.medewerker_id r.datum sr.shift_id]
  else []

/-- Rule 6, one record against the employee's assigned shifts (lines 84-98). -/
def rule6CheckAgainstShifts (r : OnbRow) (rows : List VRow) : List Violation :=
  (rows.filter (fun sr => sr.employee_id == r.medewerker_id)).flatMap (rule6Pair r)

/-- Rule 6, one record with its two skip guards (lines 72-82): unknown
worker, or status text lowercasing to `beschikbaar`. -/
def rule6Record (workers : List VWorker) (rows : List VRow) (r : OnbRow) : List Violation :=
  if ((workers.map (fun w => w.medewerker_id)).contains r.medewerker_id) = false then []
  else if pyLower r.beschikbaarheid = "beschikbaar" then []
  else rule6CheckAgainstShifts r rows

/-- Rule 6 (lines 70-98) over all unavailability records. -/
def rule6Errors (workers : List VWorker) (onb : List OnbRow) (rows : List VRow) :
    List Violation :=
  onb.flatMap (rule6Record workers rows)

/-- Rule 7.1 (lines 100-108): more than `max_consec` consecutive nights,
detected by a sliding window over the sorted night dates. -/
def rule71Errors (rows : List VRow) : List Violation :=
  (groupKeysStr (rows.map (fun r => r.employee_id))).flatMap (fun emp =>
    let dates := sortInts (((rows.filter (fun r => r.employee_id == emp)).filter
      (fun r => r.is_night)).map (fun r => r.shift_date))
    let maxConsec : Nat := if coa71Exempt.contains emp then 7 else 5
    (List.range (dates.length - maxConsec)).filterMap (fun i =>
      let window := (dates.drop i).take (maxConsec + 1)
      if window.getLastD 0 - window.headD 0 == (maxConsec : Int) then
        some (Violation.rule71 emp maxConsec window)
      else none))

/-- Rule 7.2 (lines 110-126): shifts within the two rest days after a run
of three consecutive nights not extended by a fourth. -/
def rule72Errors (rows : List VRow) : List Violation :=
  (groupKeysStr (rows.map (fun r => r.employee_id))).flatMap (fun emp =>
    let group := rows.filter (fun r => r.employee_id == emp)
    let nightDates := sortInts ((group.filter (fun r => r.is_night)).map
      (fun r => r.shift_date))
    (List.range (nightDates.length - 2)).filterMap (fun i =>
      match (nightDates.drop i).take 3 with
      | [d0, d1, d2] =>
        if d1 == d0 + 1 && d2 == d1 + 1 then
          if nightDates.contains (d2 + 1) then none
          else
            let blocked := [d2 + 1, d2 + 2]
            let nextShifts := group.filter (fun r => blocked.contains r.shift_date)
            if 0 < nextShifts.length then
              some (Violation.rule72 emp (nextShifts.map (fun r => r.shift_id)) d0 d1 d2)
            else none
        else none
      | _ => none))

/-- `len(window)` of rule 7.3 (lines 132-133): the employee's night count
in the 13 horizon weeks starting at `sw`. -/
def nightCountInWindow (rows : List VRow) (emp : String) (sw : Int) : Nat :=
  (((rows.filter (fun r => r.employee_id == emp)).filter (fun r => r.is_night)).filter
    (fun r => decide (sw ≤ r.week) && decide (r.week < sw + 13))).length

/-- Rule 7.3 body (lines 129-134) for given week bounds: start weeks range
over Python `range(week_min, week_max - 12)`. -/
def rule73Core (wmin wmax : Int) (rows : List VRow) : List Violation :=
  (groupKeysStr (rows.map (fun r => r.employee_id))).flatMap (fun emp =>
    (pyRange wmin (wmax - 12)).filterMap (fun sw =>
      if 35 < nightCountInWindow rows emp sw then
        some (Violation.rule73 emp (nightCountInWindow rows emp sw) sw)
      else none))

/-- Rule 7.3 (lines 128-134): week bounds come from `shifts['week']`; the
source would crash on an empty shifts frame (`min` of an empty column), a
case the pipeline never produces. -/
def rule73Errors (shifts : List SRow) (rows : List VRow) : List Violation :=
  match shifts with
  | [] => []
  | s :: rest =>
    rule73Core ((rest.map (fun x => x.week)).foldl min s.week)
      ((rest.map (fun x => x.week)).foldl max s.week) rows

/-- Rule 7.4 (lines 136-142): workers over 55 with any night shift, two
named exemptions skipped. -/
def rule74Errors (workers : List VWorker) (rows : List VRow) : List Violation :=
  (groupKeysStr (rows.map (fun r => r.employee_id))).filterMap (fun emp =>
    if cao74Exempt.contains emp then none
    else match lookupWorker workers emp with
    | none => none
    | some w =>
      let group := rows.filter (fun r => r.employee_id == emp)
      if 55 < w.leeftijd && group.any (fun r => r.is_night) then
        some (Violation.rule74 emp w.leeftijd
          ((group.filter (fun r => r.is_night)).map (fun r => r.shift_id)))
      else none)

/-- Rule 8 (lines 144-152): assigned shift whose required qualifications do
not intersect the worker's. -/
def rule8Errors (shifts : List SRow) (workers : List VWorker) (rows : List VRow) :
    List Violation :=
  rows.filterMap (fun row =>
    match lookupShift shifts row.shift_id, lookupWorker workers row.employee_id with
    | some s, some w =>
      if !(s.qualification.any (fun q => w.deskundigheid.contains q)) then
        some (Violation.rule8 row.employee_id s.qualification row.shift_id)
      else none
    | _, _ => none)

/-- Python `'A' in shift_name` (single-character containment). -/
def strContainsChar (s : String) (c : Char) : Bool := s.data.contains c

/-- The contiguous-block partition of rules 9.5 and 9.6 (lines 184-192 and
204-212): maximal runs of consecutive dates, in order. -/
def blocksOf (days : List Int) : List (List Int) :=
  let p := days.foldl (fun (acc : List (List Int) × List Int) d =>
    if acc.2.isEmpty || acc.2.getLastD 0 + 1 == d then (acc.1, acc.2 ++ [d])
    else (acc.1 ++ [acc.2], [d])) ([], [])
  if p.2.isEmpty then p.1 else p.1 ++ [p.2]

/-- Rule 9.5 (lines 181-199), Marlies: run once per assignment row of hers. -/
def marliesChecks (rows : List VRow) : List Violation :=
  let days := sortInts ((rows.filter (fun r => r.employee_id == "603722")).map
    (fun r => r.shift_date))
  (blocksOf days).flatMap (fun b =>
    (if 2 < b.length then [Violation.rule95long b] else [])
    ++ (let nextTwo := [b.getLastD 0 + 1, b.getLastD 0 + 2]
        let nextShifts := rows.filter (fun r =>
          r.employee_id == "603722" && nextTwo.contains r.shift_date)
        if 0 < nextShifts.length then [Violation.rule95rest b] else []))

/-- Rule 9.6 (lines 201-220), Teuna: run once per assignment row of hers. -/
def teunaChecks (rows : List VRow) : List Violation :=
  let nights := sortInts ((rows.filter (fun r =>
    r.employee_id == "602859" && r.is_night)).map (fun r => r.shift_date))
  let blocks := blocksOf nights
  (List.zip (List.range blocks.length) blocks).flatMap (fun ib =>
    (if !(ib.1 == 0 || ib.1 == blocks.length - 1) && !(ib.2.length == 7) then
      [Violation.rule96len ib.2.length ib.2]
    else [])
    ++ (let following0 := (List.range 7).map (fun j => ib.2.getLastD 0 + (j : Int) + 1)
        let allDates := rows.map (fun r => r.shift_date)
        let following := following0.filter (fun d => allDates.contains d)
        let nextShifts := rows.filter (fun r =>
          r.employee_id == "602859" && following.contains r.shift_date)
        if 0 < nextShifts.length then [Violation.rule96rest ib.2] else []))

/-- Rule 9.7 (lines 222-227), Maria: run once per assignment row of hers. -/
def mariaChecks (rows : List VRow) : List Violation :=
  let g := rows.filter (fun r => r.employee_id == "627311")
  (groupKeysInt (g.map (fun r => r.week))).filterMap (fun wk =>
    let weekGroup := g.filter (fun r => r.week == wk)
    if 3 < weekGroup.length then some (Violation.rule97 weekGroup.length wk) else none)

/-- Rule 9.8 (lines 229-238), Carolien: run once per assignment row of hers. -/
def carolienChecks (shifts : List SRow) (rows : List VRow) : List Violation :=
  let g := rows.filter (fun r => r.employee_id == "602056")
  (groupKeysInt (g.map (fun r => r.week))).flatMap (fun wk =>
    let weekGroup := g.filter (fun r => r.week == wk)
    (if 3 < weekGroup.length then [Violation.rule98count weekGroup.length wk] else [])
    ++ weekGroup.flatMap (fun sr =>
        match lookupShift shifts sr.shift_id with
        | none => []
        | some s =>
          if !(strContainsChar s.shift_name 'A') && sr.is_night == false then
            [Violation.rule98late sr.shift_id s.shift_name]
          else []))

/-- Rule 9 (lines 154-238) for one assignment row. -/
def rule9Row (shifts : List SRow) (rows : List VRow) (row : VRow) : List Violation :=
  match lookupShift shifts row.shift_id with
  | none => []
  | some shift =>
    let emp := row.employee_id
    let date := row.shift_date
    let dow := shift.day_of_week
    (if emp == "2097" && shift.is_night == false then [Violation.rule91 row.shift_id date]
     else [])
    ++ (if emp == "2653" && !(dow == 5 || dow == 6) then [Violation.rule92 row.shift_id date]
        else [])
    ++ (if emp == "3888"
          && !((dow == 4 && strContainsChar row.shift_name 'A') || dow == 5 || dow == 6) then
          [Violation.rule93 row.shift_id date]
        else [])
    ++ (if emp == "601011" && (dow == 0 || dow == 1 || dow == 2) then
          [Violation.rule94 row.shift_id date]
        else [])
    ++ (if emp == "603722" then marliesChecks rows else [])
    ++ (if emp == "602859" then teunaChecks rows else [])
    ++ (if emp == "627311" then mariaChecks rows else [])
    ++ (if emp == "602056" then carolienChecks shifts rows else [])

/-- Rule 9 over all assignment rows (`iterrows`, line 155). -/
def rule9Errors (shifts : List SRow) (rows : List VRow) : List Violation :=
  rows.flatMap (rule9Row shifts rows)

/-- The `data` dictionary fields the validator reads. -/
structure ValidData where
  shifts : List SRow
  workers : List VWorker
  onb : List OnbRow
deriving DecidableEq

/-- The `result` dictionary field the validator reads. -/
structure ValidResult where
  assignments_df : List ARow
deriving DecidableEq

/-- The `errors` list `validate_auto_rooster` accumulates, rules in source
order. -/
def validateErrors (data : ValidData) (result : ValidResult) : List Violation :=
  let rows := dropnaAssignments result.assignments_df
  rule1Errors rows ++ rule2Errors rows ++ rule3Errors rows
  ++ rule4Errors data.workers rows ++ rule5Errors data.workers rows
  ++ rule6Errors data.workers data.onb rows
  ++ rule71Errors rows ++ rule72Errors rows
  ++ rule73Errors data.shifts rows ++ rule74Errors data.workers rows
  ++ rule8Errors data.shifts data.workers rows
  ++ rule9Errors data.shifts rows

/-- `validate_auto_rooster` itself: it builds `errors` (see
`validateErrors`), prints them (lines 240-245), and falls off the end with
no `return` statement — its value is Python `None`. -/
def validate_auto_rooster (data : ValidData) (result : ValidResult) :
    Option (List Violation) :=
  (fun _errors => none) (validateErrors data result)

/-- Python truthiness of the value the caller receives. -/
def pyTruthy : Option (List Violation) → Bool
  | none => false
  | some l => !l.isEmpty

/-- The caller's test `if errors:` in `generate_schedule`
(`src/web/app.py` lines 77-79): `true` would produce the 400 failure
response. -/
def generate_schedule_fails_validation (data : ValidData) (result : ValidResult) : Bool :=
  pyTruthy (validate_auto_rooster data result)

/-! ### Claim C1: the validator's return value -/

/-- A tiny model: one shift, two qualified workers, no unavailability. -/
def data1 : ValidData :=
  { shifts := [⟨0, "D1", 1, 0, false, [1, 2]⟩]
    workers := [⟨"1", 5, 2400, 30, [2]⟩, ⟨"2", 5, 2400, 30, [2]⟩]
    onb := [] }

/-- A non-compliant proposal: shift 0 assigned to both workers. -/
def result1 : ValidResult :=
  { assignments_df :=
      [⟨0, some "1", 0, 1, false, 480, 420, 900, "D1"⟩,
       ⟨0, some "2", 0, 1, false, 480, 420, 900, "D1"⟩] }

/-- C1 is a code bug: `validate_auto_rooster` computes the violation list
but has no `return` statement, so it returns `None` for every input; the
caller's emptiness test `if errors:` in `generate_schedule` therefore never
fires, and a proposal with a rule-1 violation is treated as compliant. -/
theorem C1_code_bug :
    (∀ (d : ValidData) (r : ValidResult), validate_auto_rooster d r = none)
    ∧ validateErrors data1 result1 ≠ []
    ∧ generate_schedule_fails_validation data1 result1 = false :=
  ⟨fun _ _ => rfl, by decide, rfl⟩

/-! ### Claim C4: the rolling 13-week night window -/

/-- A 13-week horizon: `shifts['week']` spans 1..13. -/
def shifts13 : List SRow := [⟨0, "N", 1, 0, true, [2]⟩, ⟨1, "N", 13, 0, true, [2]⟩]

/-- 36 night assignments of worker 1 spread over weeks 1..12. -/
def rows36 : List VRow := (List.range 36).map (fun i =>
  ⟨i, "1", (i : Int), ((i / 3 : Nat) : Int) + 1, true, 495, 1365, 420, "N"⟩)

/-- C4 as frozen is false: over a 13-week horizon the only 13-week window
(weeks 1..13, ending at the final week) holds 36 > 35 nights for worker 1,
yet rule 7.3 emits nothing, because `range(week_min, week_max - 12)` is
`range(1, 1)` — the window ending at the final week is never checked. -/
theorem C4_counterexample :
    35 < nightCountInWindow rows36 "1" 1 ∧ rule73Errors shifts13 rows36 = [] :=
  ⟨by decide, by decide⟩

/-- C4 amended: rule 7.3 examines exactly the start weeks in Python
`range(week_min, week_max - 12)` — the last window it checks ends at week
`week_max - 1`, the window ending at the final week is excluded, and for a
horizon shorter than 14 weeks no window is checked at all; within a checked
window a violation is emitted exactly when the night count exceeds 35. -/
theorem C4_amended (wmin wmax : Int) (rows : List VRow) (emp : String) (sw : Int) :
    (∃ n, Violation.rule73 emp n sw ∈ rule73Core wmin wmax rows) ↔
      (emp ∈ rows.map (fun r => r.employee_id) ∧ sw ∈ pyRange wmin (wmax - 12)
        ∧ 35 < nightCountInWindow rows emp sw) := by
  constructor
  · rintro ⟨n, hn⟩
    simp only [rule73Core, List.mem_flatMap, List.mem_filterMap] at hn
    obtain ⟨emp0, hemp0, sw0, hsw0, hsome⟩ := hn
    by_cases hc : 35 < nightCountInWindow rows emp0 sw0
    · rw [if_pos hc] at hsome
      have h := Option.some.inj hsome
      injection h with he hcnt hsw
      subst he
      subst hsw
      exact ⟨by simpa [groupKeysStr, mem_sortedUnique] using hemp0, hsw0, hc⟩
    · rw [if_neg hc] at hsome
      exact absurd hsome (by simp)
  · rintro ⟨hemp, hsw, hcnt⟩
    refine ⟨nightCountInWindow rows emp sw, ?_⟩
    simp only [rule73Core, List.mem_flatMap, List.mem_filterMap]
    refine ⟨emp, ?_, sw, hsw, ?_⟩
    · simpa [groupKeysStr, mem_sortedUnique] using hemp
    · rw [if_pos hcnt]

/-! ### Claim C7: the contract-hours cap multiplier -/

/-- Worker 1 with a 500-minute weekly cap. -/
def w7 : VWorker := ⟨"1", 5, 500, 30, [2]⟩

/-- A 4-week-horizon proposal in which only one shift, in week 1, is
assigned (600 minutes, worker 1); weeks 2..4 are left unfilled. -/
def arows7 : List ARow :=
  [⟨0, some "1", 0, 1, false, 600, 420, 900, "D1"⟩,
   ⟨1, none, 7, 2, false, 480, 420, 900, "D1"⟩,
   ⟨2, none, 14, 3, false, 480, 420, 900, "D1"⟩,
   ⟨3, none, 21, 4, false, 480, 420, 900, "D1"⟩]

/-- C7 as frozen is false: rule 5 multiplies the cap by
`assignments_df['week'].nunique()` — the number of distinct weeks among the
assigned rows — not by the number of horizon weeks.  Worker 1 is assigned
600 minutes total over a 4-week horizon (cap 500/week, allowed 2000 by the
claim), yet the code flags 600 > 500 × 1 because only one week carries an
assignment. -/
theorem C7_counterexample :
    rule5Errors [w7] (dropnaAssignments arows7) = [Violation.rule5 "1" 600 500 1]
    ∧ totalMinutesOf (dropnaAssignments arows7) "1" ≤ 500 * 4 :=
  ⟨by decide, by decide⟩

/-- C7 amended: a worker's rule-5 violation is emitted exactly when their
total assigned minutes exceed `contract_minutes` times the number of
distinct weeks among the assigned rows (not the horizon length); the
violation reports exactly those totals.  Scenario D holds whenever the
assigned rows do span all 4 horizon weeks. -/
theorem C7_amended (workers : List VWorker) (rows : List VRow) (emp : String) (w : VWorker)
    (hw : lookupWorker workers emp = some w) :
    (Violation.rule5 emp (totalMinutesOf rows emp)
        (w.contract_minutes * (numWeeksOf rows : Int)) (numWeeksOf rows)
      ∈ rule5Errors workers rows)
    ↔ (emp ∈ rows.map (fun r => r.employee_id)
        ∧ w.contract_minutes * (numWeeksOf rows : Int) < totalMinutesOf rows emp) := by
  constructor
  · intro hmem
    simp only [rule5Errors, List.mem_filterMap] at hmem
    obtain ⟨emp0, hemp0, hsome⟩ := hmem
    cases hl : lookupWorker workers emp0 with
    | none =>
      rw [hl] at hsome
      simp at hsome
    | some w0 =>
      rw [hl] at hsome
      replace hsome :
          (if w0.contract_minutes * (numWeeksOf rows : Int) < totalMinutesOf rows emp0 then
            some (Violation.rule5 emp0 (totalMinutesOf rows emp0)
              (w0.contract_minutes * (numWeeksOf rows : Int)) (numWeeksOf rows))
          else none)
          = some (Violation.rule5 emp (totalMinutesOf rows emp)
              (w.contract_minutes * (numWeeksOf rows : Int)) (numWeeksOf rows)) := hsome
      by_cases hc : w0.contract_minutes * (numWeeksOf rows : Int) < totalMinutesOf rows emp0
      · rw [if_pos hc] at hsome
        have h := Option.some.inj hsome
        injection h with he ht ha hn
        subst he
        have hww : w0 = w := by
          rw [hl] at hw
          exact Option.some.inj hw
        subst hww
        exact ⟨by simpa [groupKeysStr, mem_sortedUnique] using hemp0, hc⟩
      · rw [if_neg hc] at hsome
        simp at hsome
  · rintro ⟨hemp, hc⟩
    simp only [rule5Errors, List.mem_filterMap]
    refine ⟨emp, ?_, ?_⟩
    · simpa [groupKeysStr, mem_sortedUnique] using hemp
    · rw [hw]
      show (if w.contract_minutes * (numWeeksOf rows : Int) < totalMinutesOf rows emp then
          some (Violation.rule5 emp (totalMinutesOf rows emp)
            (w.contract_minutes * (numWeeksOf rows : Int)) (numWeeksOf rows))
        else none)
        = some (Violation.rule5 emp (totalMinutesOf rows emp)
            (w.contract_minutes * (numWeeksOf rows : Int)) (numWeeksOf rows))
      rw [if_pos hc]

/-- Worker of scenario D: 500-minute weekly cap. -/
def wD : VWorker := ⟨"1", 5, 500, 30, [2]⟩

/-- Scenario D proposal: 2100 minutes spread over all 4 horizon weeks. -/
def rowsD : List VRow :=
  [⟨0, "1", 0, 1, false, 525, 420, 900, "D1"⟩,
   ⟨1, "1", 7, 2, false, 525, 420, 900, "D1"⟩,
   ⟨2, "1", 14, 3, false, 525, 420, 900, "D1"⟩,
   ⟨3, "1", 21, 4, false, 525, 420, 900, "D1"⟩]

/-- Witness instantiating `C7_amended` on scenario D: the violation
reporting 2100 > 2000 over 4 weeks is emitted. -/
theorem C7_witness :
    Violation.rule5 "1" 2100 2000 4 ∈ rule5Errors [wD] rowsD :=
  (C7_amended [wD] rowsD "1" wD rfl).mpr ⟨by decide, by decide⟩

/-! ### Claim C8: unavailability overlap semantics -/

theorem rule6Pair_length (r : OnbRow) (s : VRow) :
    (rule6Pair r s).length
      = if (s.shift_date == r.datum && blocksShift r s) then 1 else 0 := by
  unfold rule6Pair blocksShift
  by_cases hd : (s.shift_date == r.datum) = true
  · cases hv : r.tijd_vanaf with
    | none => simp [hd]
    | some su =>
      cases ht : r.tijd_tm with
      | none => simp [hd]
      | some eu =>
        by_cases hov : (!(decide (s.end_time ≤ su) || decide (eu ≤ s.start_time))) = true
        · simp [hd, hov]
        · simp [hd, hov]
  · simp [hd]

/-- C8: for one unavailability record of a known worker whose status is not
`beschikbaar`, rule 6 emits exactly one violation per assigned shift of
that worker on that date that the record blocks — a record with a missing
time bound blocks every shift of the date, a complete time window blocks
exactly the shifts overlapping it under the half-open test — and no
violation for any other shift. -/
theorem C8_theorem (workers : List VWorker) (r : OnbRow) (rows : List VRow)
    (hw : (workers.map (fun w => w.medewerker_id)).contains r.medewerker_id = true)
    (hs : pyLower r.beschikbaarheid ≠ "beschikbaar") :
    (rule6Errors workers [r] rows).length
      = (rows.filter (fun s => s.employee_id == r.medewerker_id
          && (s.shift_date == r.datum && blocksShift r s))).length := by
  have h1 : rule6Errors workers [r] rows = rule6CheckAgainstShifts r rows := by
    have h2 : rule6Record workers rows r = rule6CheckAgainstShifts r rows := by
      unfold rule6Record
      rw [hw]
      simp [hs]
    simp [rule6Errors, h2]
  rw [h1]
  unfold rule6CheckAgainstShifts
  rw [length_flatMap_of_single (rule6Pair r)
      (fun s => s.shift_date == r.datum && blocksShift r s) (rule6Pair_length r),
    filter_filter_eq]

/-- Scenario C worker list. -/
def ws8 : List VWorker := [⟨"1", 5, 2400, 30, [2]⟩]

/-- Scenario C assignment: worker 1 works shift 0 on day 5. -/
def rows8 : List VRow := [⟨0, "1", 5, 1, false, 480, 420, 900, "D1"⟩]

/-- Scenario C record: full-day unavailability of worker 1 on day 5. -/
def onb8 : OnbRow := ⟨"1", 5, "Vakantie", none, none⟩

/-- Witness instantiating `C8_theorem` on scenario C: exactly one
violation. -/
theorem C8_witness : (rule6Errors ws8 [onb8] rows8).length = 1 := by
  rw [C8_theorem ws8 onb8 rows8 (by decide) (by decide)]
  decide

/-! ### Claim C10: which statuses count as unavailability -/

/-- The synthetic status injected for fixed commitments
(`preprocessing.py` line 230). -/
def constScheduleStatus : String := "Niet beschikbaar (constant schedule)"

/-- The `fillna('Onbekend')` of `preprocessing.py` line 246. -/
def onbStatusFilled (s : Option String) : String := s.getD "Onbekend"

/-- C10: a record of a known worker is skipped by rule 6 exactly when its
status text lowercases to `beschikbaar`; any other status — including the
`Onbekend` substituted for a missing status and the synthetic
fixed-commitment status — is processed against the worker's assigned
shifts by logic that never reads the status text again. -/
theorem C10_theorem (workers : List VWorker) (rows : List VRow) (r : OnbRow)
    (rest : List OnbRow)
    (hw : (workers.map (fun w => w.medewerker_id)).contains r.medewerker_id = true) :
    (pyLower r.beschikbaarheid = "beschikbaar" →
      rule6Errors workers (r :: rest) rows = rule6Errors workers rest rows)
    ∧ (pyLower r.beschikbaarheid ≠ "beschikbaar" →
      rule6Errors workers (r :: rest) rows
        = rule6CheckAgainstShifts r rows ++ rule6Errors workers rest rows)
    ∧ (∀ st : String, rule6CheckAgainstShifts { r with beschikbaarheid := st } rows
        = rule6CheckAgainstShifts r rows)
    ∧ onbStatusFilled none = "Onbekend"
    ∧ pyLower "Onbekend" ≠ "beschikbaar"
    ∧ pyLower constScheduleStatus ≠ "beschikbaar" := by
  refine ⟨?_, ?_, fun st => rfl, rfl, by decide, by decide⟩
  · intro h
    have h2 : rule6Record workers rows r = [] := by
      unfold rule6Record
      rw [hw]
      simp [h]
    simp [rule6Errors, List.flatMap_cons, h2]
  · intro h
    have h2 : rule6Record workers rows r = rule6CheckAgainstShifts r rows := by
      unfold rule6Record
      rw [hw]
      simp [h]
    simp [rule6Errors, List.flatMap_cons, h2]

/-- C10 witness worker list. -/
def ws10 : List VWorker := [⟨"1", 5, 2400, 30, [2]⟩]

/-- C10 witness assignment rows. -/
def rows10 : List VRow := [⟨0, "1", 5, 1, false, 480, 420, 900, "D1"⟩]

/-- C10 witness record: the substituted `Onbekend` status. -/
def onb10 : OnbRow := ⟨"1", 5, "Onbekend", none, none⟩

/-- Witness instantiating `C10_theorem`: an `Onbekend` record of a known
worker is processed like any declared unavailability. -/
theorem C10_witness :
    rule6Errors ws10 [onb10] rows10 = rule6CheckAgainstShifts onb10 rows10 := by
  have h := (C10_theorem ws10 rows10 onb10 [] (by decide)).2.1 (by decide)
  rw [show rule6Errors ws10 ([] : List OnbRow) rows10 = [] from rfl,
    List.append_nil] at h
  exact h

end Rooster
